import Mathlib

/-!
Shallow embedding of the multi-agent conversation manager
(`src/MultiAgentConversation.py` together with the environment helper
`get_gemini_api_key` from `utils`).

Python dictionaries are modelled as association lists with
insert-or-overwrite semantics (`dictInsert`), Python exceptions as an
explicit `PyError` sum carried in `Except`, the process environment as a
partial map `String → Option String`, the YAML configuration resource as an
inductive describing the three observable outcomes of `open` + `safe_load`
(missing file, parse failure, parsed document), the wall clock
`time.time()` as an abstract per-attempt clock `Nat → Nat`, and the opaque
remote collaborator `ConversableAgent.initiate_chat` as an oracle indexed
by the attempt number (the standard mock used by the test suite).
The `@backoff.on_exception(backoff.expo, Exception, max_tries=3)`
decorator is modelled by `runAttempts`, which re-runs the decorated body on
any failure up to 3 total attempts and propagates the final failure; the
real-time exponential sleeps between attempts have no observable effect on
the data model and are not represented.
-/

/-- Python exceptions that the embedded code can raise.
`keyError` ≈ `KeyError` (the spec taxonomy calls it `UnknownAgentError`),
`fileNotFoundError` ≈ `FileNotFoundError` (spec: `ResourceNotFoundError`),
`yamlError` ≈ `yaml.YAMLError` (spec: `ConfigurationFormatError`),
`chatError` stands for an arbitrary failure raised by the opaque remote
collaborator during `initiate_chat`. -/
inductive PyError where
  | keyError (msg : String)
  | fileNotFoundError (msg : String)
  | yamlError (msg : String)
  | chatError (msg : String)
  deriving DecidableEq, Repr

/-- One entry of the `config_list` built by `_configure_llm`. -/
structure LLMEntry where
  model : String
  api_key : Option String
  api_type : String
  deriving DecidableEq, Repr

/-- The llm configuration dictionary built by `_configure_llm`. -/
structure LLMConfig where
  config_list : List LLMEntry
  max_tokens : Nat
  deriving DecidableEq, Repr

/-- The process environment: `os.getenv` as a partial map. -/
abbrev Env : Type := String → Option String

/-- `get_gemini_api_key` from `utils` (the `.ipynb_checkpoints` copy, the
one present in the repository): `return os.getenv("GEMINI_API_KEY")`.
Note it returns the raw lookup result — `None` when the variable is
absent — and raises nothing. -/
def get_gemini_api_key (env : Env) : Option String :=
  env "GEMINI_API_KEY"

/-- `ConversationManager._configure_llm`: builds the Gemini llm
configuration from the environment-sourced key. -/
def _configure_llm (env : Env) : LLMConfig :=
  { config_list := [{ model := "gemini-1.5-flash"
                    , api_key := get_gemini_api_key env
                    , api_type := "google" }]
  , max_tokens := 50 }

/-- The `is_termination_msg` lambda passed to every agent:
`"See you again later" in msg["content"]` (substring containment,
modelled via `splitOn`). -/
def terminationPredicate (content : String) : Bool :=
  (content.splitOn "See you again later").length > 1

/-- An AutoGen `ConversableAgent` handle, restricted to the construction
arguments the manager passes (the termination predicate is the same
closure for every agent, kept as the standalone `terminationPredicate`). -/
structure ConversableAgent where
  name : Option String
  system_message : Option String
  llm_config : LLMConfig
  human_input_mode : String
  deriving DecidableEq, Repr

/-- The `ConversableAgent(...)` constructor call made in `_load_agents`,
treated as a total opaque constructor (the agent library is out of scope
per the spec; only the arguments recorded here are observable). -/
def ConversableAgent.create (name system_message : Option String)
    (llm : LLMConfig) : ConversableAgent :=
  { name := name
  , system_message := system_message
  , llm_config := llm
  , human_input_mode := "NEVER" }

/-- A Python dict from optional strings (an agent config may lack the
`name` key, in which case the dict key is `None`) to agent handles,
modelled as an association list with unique keys. -/
abbrev Registry : Type := List (Option String × ConversableAgent)

/-- Dict lookup: the value stored at `k`, if any. -/
def dictLookup (reg : Registry) (k : Option String) : Option ConversableAgent :=
  match reg.find? (fun p => decide (p.1 = k)) with
  | some p => some p.2
  | none => none

/-- Python `k in d`. -/
def dictContains (reg : Registry) (k : Option String) : Bool :=
  (dictLookup reg k).isSome

/-- Python dict assignment `d[k] = v`: overwrite in place when the key is
present, append otherwise. -/
def dictInsert (reg : Registry) (k : Option String) (v : ConversableAgent) : Registry :=
  if dictContains reg k then
    reg.map (fun p => if p.1 = k then (k, v) else p)
  else
    reg ++ [(k, v)]

/-- One record of the `agents:` sequence of the YAML document; both keys
are read with `.get`, hence optional. -/
structure AgentDef where
  name : Option String
  system_message : Option String
  deriving DecidableEq, Repr

/-- A successfully parsed YAML configuration document: `agents := none`
models a document without a top-level `agents` key (`config.get('agents',
[])` then yields the empty list). -/
structure ConfigDoc where
  agents : Option (List AgentDef)
  deriving DecidableEq, Repr

/-- The three observable outcomes of `open(config_path)` +
`yaml.safe_load`: file missing, parse failure (with the underlying parser
message), or a parsed document. -/
inductive ConfigResource where
  | missing
  | parseFailure (errMsg : String)
  | parsed (doc : ConfigDoc)
  deriving DecidableEq, Repr

/-- The agent-construction loop of `_load_agents`: for each definition,
read `name` and `system_message` with `.get` and store the created handle
under the (possibly absent) name. -/
def loadAgentRegistry (llm : LLMConfig) (defs : List AgentDef) : Registry :=
  defs.foldl
    (fun reg ac =>
      dictInsert reg ac.name (ConversableAgent.create ac.name ac.system_message llm))
    []

/-- `ConversationManager._load_agents`: re-raises `FileNotFoundError` with
a message naming the path, re-raises `yaml.YAMLError` with a message
naming the path and the parser error, otherwise builds the registry from
`config.get('agents', [])`. -/
def _load_agents (config_path : String) (res : ConfigResource)
    (llm : LLMConfig) : Except PyError Registry :=
  match res with
  | .missing =>
      .error (.fileNotFoundError ("Configuration file " ++ config_path ++ " not found"))
  | .parseFailure e =>
      .error (.yamlError ("Error parsing " ++ config_path ++ ": " ++ e))
  | .parsed doc =>
      .ok (loadAgentRegistry llm (doc.agents.getD []))

/-- A record of the topic log. `time.time()` values are abstract clock
readings (`Nat`). -/
structure TopicRecord where
  initiator : String
  recipient : String
  topic : String
  timestamp : Nat
  deriving DecidableEq, Repr

/-- The `ConversationManager` state after a successful `__init__`. -/
structure ConversationManager where
  agents : Registry
  topic_history : List TopicRecord
  config_path : String
  llm_config : LLMConfig
  deriving DecidableEq, Repr

/-- `ConversationManager.__init__`: build the llm configuration from the
environment, then load the agents from the configuration resource; any
error from `_load_agents` propagates and no manager is produced. -/
def ConversationManager.construct (env : Env) (config_path : String)
    (res : ConfigResource) : Except PyError ConversationManager :=
  let llm := _configure_llm env
  match _load_agents config_path res llm with
  | .error e => .error e
  | .ok reg =>
      .ok { agents := reg
          , topic_history := []
          , config_path := config_path
          , llm_config := llm }

/-- The loop body of `get_last_topic`: first record (in the traversal
order given) whose initiator or recipient equals the queried name. -/
def scanTopics (agent_name : String) : List TopicRecord → Option String
  | [] => none
  | t :: rest =>
      if t.initiator = agent_name ∨ t.recipient = agent_name then some t.topic
      else scanTopics agent_name rest

/-- `ConversationManager.get_last_topic`: scan `reversed(topic_history)`
and return the first matching topic, `None` when nothing matches. -/
def ConversationManager.get_last_topic (m : ConversationManager)
    (agent_name : String) : Option String :=
  scanTopics agent_name m.topic_history.reverse

/-- The opaque `ChatResult` returned by `initiate_chat` (chat history,
cost, summary), per the spec's ExchangeResult shape. -/
structure ChatResult where
  chat_history : List String
  cost : Nat
  summary : String
  deriving DecidableEq, Repr

/-- The remote collaborator `initiate_chat`, mocked per attempt: given the
attempt number, the two handles looked up from the registry, the message
and `max_turns`, it either returns a result or fails. -/
abbrev ChatOracle : Type :=
  Nat → ConversableAgent → ConversableAgent → String → Nat → Except PyError ChatResult

/-- The undecorated body of `initiate_conversation` for one attempt:
check both names against the registry (raising `KeyError` before any side
effect otherwise), append one `TopicRecord` stamped with the current
clock reading, then delegate to the remote collaborator. Returns the
manager state after the attempt together with the outcome; note the
append survives a failing delegation. -/
def initiate_conversation_once (m : ConversationManager)
    (chat : ConversableAgent → ConversableAgent → String → Nat → Except PyError ChatResult)
    (initiator_name recipient_name initial_message : String)
    (max_turns : Nat) (now : Nat) :
    ConversationManager × Except PyError ChatResult :=
  match dictLookup m.agents (some initiator_name),
        dictLookup m.agents (some recipient_name) with
  | some initiator, some recipient =>
      let m' := { m with topic_history := m.topic_history ++
        [{ initiator := initiator_name
         , recipient := recipient_name
         , topic := initial_message
         , timestamp := now }] }
      (m', chat initiator recipient initial_message max_turns)
  | _, _ => (m, .error (.keyError "Initiator or recipient agent not found"))

/-- `backoff.on_exception(backoff.expo, Exception, max_tries=n)` applied
to a stateful body `f`: run attempt `i`; on success stop, on failure
retry while retries remain, and propagate the failure of the final
attempt. Also returns the total number of attempts made. -/
def runAttempts {σ ε α : Type} (f : Nat → σ → σ × Except ε α) :
    Nat → Nat → σ → σ × Except ε α × Nat
  | i, 0, s =>
      match f i s with
      | (s', r) => (s', r, i + 1)
  | i, Nat.succ n, s =>
      match f i s with
      | (s', Except.ok a) => (s', Except.ok a, i + 1)
      | (s', Except.error _) => runAttempts f (i + 1) n s'

/-- The decorated `initiate_conversation`: the whole body — registry
check, topic append and delegation alike — runs under
`@backoff.on_exception(backoff.expo, Exception, max_tries=3)`, i.e. up to
3 total attempts. `clock i` is the `time.time()` reading of attempt `i`.
Result: final manager state, final outcome, number of attempts made. -/
def initiate_conversation (m : ConversationManager) (chat : ChatOracle)
    (initiator_name recipient_name initial_message : String)
    (max_turns : Nat) (clock : Nat → Nat) :
    ConversationManager × Except PyError ChatResult × Nat :=
  runAttempts
    (fun i s =>
      initiate_conversation_once s (chat i)
        initiator_name recipient_name initial_message max_turns (clock i))
    0 2 m

/-! Concrete fixtures used by counterexamples and witnesses. -/

/-- An environment with no variables set (in particular no
`GEMINI_API_KEY`). -/
def envEmpty : Env := fun _ => none

/-- An environment holding a test key. -/
def envWithKey : Env := fun v => if v = "GEMINI_API_KEY" then some "test-key" else none

/-- A two-agent configuration document with distinct names. -/
def docAB : ConfigDoc :=
  { agents := some
      [ { name := some "A", system_message := some "sysA" }
      , { name := some "B", system_message := some "sysB" } ] }

/-- A manager as constructed from `docAB` under `envWithKey`. -/
def mgrAB : ConversationManager :=
  { agents := loadAgentRegistry (_configure_llm envWithKey) [
      { name := some "A", system_message := some "sysA" },
      { name := some "B", system_message := some "sysB" } ]
  , topic_history := []
  , config_path := "config.yaml"
  , llm_config := _configure_llm envWithKey }

/-- A mocked remote collaborator that always fails. -/
def chatAlwaysFails : ChatOracle :=
  fun _ _ _ _ _ => .error (.chatError "remote failure")

/-- A fixed successful exchange result. -/
def okResult : ChatResult :=
  { chat_history := ["hello", "reply"], cost := 1, summary := "sum" }

/-- A mocked remote collaborator that fails on attempts 0 and 1 and
succeeds on attempt 2. -/
def chatFailsTwice : ChatOracle :=
  fun i _ _ _ _ => if i < 2 then .error (.chatError "transient failure") else .ok okResult

/-! Helper lemmas about `get_last_topic`. -/

/-- Bool form of the membership test of the `get_last_topic` loop. -/
def topicMentions (agent_name : String) (t : TopicRecord) : Bool :=
  decide (t.initiator = agent_name) || decide (t.recipient = agent_name)

theorem scanTopics_eq_find (agent_name : String) (l : List TopicRecord) :
    scanTopics agent_name l = (l.find? (topicMentions agent_name)).map TopicRecord.topic := by
  induction l with
  | nil => rfl
  | cons t rest ih =>
      by_cases h : t.initiator = agent_name ∨ t.recipient = agent_name
      · have hb : topicMentions agent_name t = true := by
          simp [topicMentions, h]
        rw [List.find?_cons_of_pos _ hb]
        simp [scanTopics, h]
      · have hb : ¬ topicMentions agent_name t = true := by
          simp only [topicMentions, Bool.or_eq_true, decide_eq_true_eq]
          exact h
        rw [List.find?_cons_of_neg _ hb]
        simp [scanTopics, h, ih]

theorem find?_eq_head_filter {α : Type} (p : α → Bool) (l : List α) :
    l.find? p = (l.filter p).head? := by
  induction l with
  | nil => rfl
  | cons a t ih =>
      cases h : p a
      · have h' : ¬ p a = true := by simp [h]
        rw [List.find?_cons_of_neg _ h', List.filter_cons_of_neg h', ih]
      · rw [List.find?_cons_of_pos _ h, List.filter_cons_of_pos h, List.head?_cons]

/-- The topic log of the worked example of the spec:
`[{i:"A",r:"B",topic:"t1"}, {i:"B",r:"A",topic:"t2"}]`. -/
def mgrExampleLog : ConversationManager :=
  { agents := []
  , topic_history :=
      [ { initiator := "A", recipient := "B", topic := "t1", timestamp := 0 }
      , { initiator := "B", recipient := "A", topic := "t2", timestamp := 1 } ]
  , config_path := "config.yaml"
  , llm_config := _configure_llm envEmpty }

/-- C5: `get_last_topic` scans the log newest-first and returns the topic
of the first record mentioning the queried name — equivalently, the topic
of the most recently appended matching record (`filter` + `getLast?`); on
an empty log it returns `none` for every name; on the worked example the
query for "A" returns "t2". -/
theorem get_last_topic_spec (m : ConversationManager) (agent_name : String) :
    m.get_last_topic agent_name =
      ((m.topic_history.filter (topicMentions agent_name)).getLast?).map TopicRecord.topic ∧
    (m.topic_history = [] → m.get_last_topic agent_name = none) ∧
    mgrExampleLog.get_last_topic "A" = some "t2" := by
  refine ⟨?_, ?_, rfl⟩
  · rw [ConversationManager.get_last_topic, scanTopics_eq_find, find?_eq_head_filter,
      List.filter_reverse, List.head?_reverse]
  · intro h
    rw [ConversationManager.get_last_topic, h]
    rfl

/-- Witness for C5 at a concrete empty-log manager and name. -/
theorem get_last_topic_spec_witness :
    ConversationManager.get_last_topic mgrAB "A" = none :=
  (get_last_topic_spec mgrAB "A").2.1 rfl

/-- C6: constructing the manager from a missing configuration resource
fails with the file-not-found error whose message contains the resource
path, and from an unparsable resource fails with the format (YAML)
error. -/
theorem construct_missing_or_malformed_config (env : Env) (path errMsg : String) :
    (ConversationManager.construct env path .missing =
        .error (.fileNotFoundError ("Configuration file " ++ path ++ " not found")) ∧
      ∃ pre post, "Configuration file " ++ path ++ " not found" = pre ++ path ++ post) ∧
    ConversationManager.construct env path (.parseFailure errMsg) =
      .error (.yamlError ("Error parsing " ++ path ++ ": " ++ errMsg)) :=
  ⟨⟨rfl, "Configuration file ", " not found", rfl⟩, rfl⟩

/-- C8: a parsed configuration document without a top-level `agents` key
yields a successfully constructed manager with an empty registry. -/
theorem construct_no_agents_key (env : Env) (path : String) :
    ConversationManager.construct env path (.parsed { agents := none }) =
      .ok { agents := []
          , topic_history := []
          , config_path := path
          , llm_config := _configure_llm env } :=
  rfl

/-- C3 (code bug): with `GEMINI_API_KEY` absent from the environment,
`get_gemini_api_key` returns `none` instead of raising, and manager
construction succeeds anyway, creating both agents of `docAB` with an
absent API key — contradicting the spec and the repository test
`test_get_gemini_api_key_missing`, which expect a configuration error
before any agent is created. -/
theorem construct_missing_secret_still_creates_agents :
    get_gemini_api_key envEmpty = none ∧
    (ConversationManager.construct envEmpty "config.yaml" (.parsed docAB)).toOption.map
        (fun m => (m.agents.length, m.llm_config.config_list.map LLMEntry.api_key))
      = some (2, [none]) :=
  ⟨rfl, rfl⟩

/-! Helper lemmas about the association-list dict model. -/

theorem dictLookup_cons (p : Option String × ConversableAgent) (t : Registry)
    (k : Option String) :
    dictLookup (p :: t) k = if p.1 = k then some p.2 else dictLookup t k := by
  by_cases h : p.1 = k
  · simp [dictLookup, List.find?_cons, h]
  · simp [dictLookup, List.find?_cons, h]

theorem dictContains_cons (p : Option String × ConversableAgent) (t : Registry)
    (k : Option String) :
    dictContains (p :: t) k = if p.1 = k then true else dictContains t k := by
  by_cases h : p.1 = k <;> simp [dictContains, dictLookup_cons, h]

theorem dictLookup_mapReplace_self (reg : Registry) (k : Option String)
    (v : ConversableAgent) (h : dictContains reg k = true) :
    dictLookup (reg.map (fun p => if p.1 = k then (k, v) else p)) k = some v := by
  induction reg with
  | nil => simp [dictContains, dictLookup] at h
  | cons p t ih =>
      by_cases hp : p.1 = k
      · simp [List.map_cons, hp, dictLookup_cons]
      · have h' : dictContains t k = true := by
          simpa [dictContains_cons, hp] using h
        simp [List.map_cons, hp, dictLookup_cons, ih h']

theorem dictLookup_mapReplace_other (reg : Registry) (k k' : Option String)
    (v : ConversableAgent) (h : k' ≠ k) :
    dictLookup (reg.map (fun p => if p.1 = k then (k, v) else p)) k' = dictLookup reg k' := by
  induction reg with
  | nil => rfl
  | cons p t ih =>
      by_cases hp : p.1 = k
      · have h1 : ¬ k = k' := fun hc => h hc.symm
        have h2 : ¬ p.1 = k' := by rw [hp]; exact h1
        simp [List.map_cons, hp, dictLookup_cons, h1, h2, ih]
      · simp [List.map_cons, hp, dictLookup_cons, ih]

theorem dictLookup_append_self (reg : Registry) (k : Option String)
    (v : ConversableAgent) (h : dictContains reg k = false) :
    dictLookup (reg ++ [(k, v)]) k = some v := by
  induction reg with
  | nil => simp [dictLookup_cons]
  | cons p t ih =>
      have hp : ¬ p.1 = k := by
        intro hc
        rw [dictContains_cons, if_pos hc] at h
        exact Bool.noConfusion h
      have h' : dictContains t k = false := by
        rwa [dictContains_cons, if_neg hp] at h
      simp [List.cons_append, dictLookup_cons, hp, ih h']

theorem dictLookup_append_other (reg : Registry) (k k' : Option String)
    (v : ConversableAgent) (h : k' ≠ k) :
    dictLookup (reg ++ [(k, v)]) k' = dictLookup reg k' := by
  induction reg with
  | nil =>
      have h1 : ¬ k = k' := fun hc => h hc.symm
      simp [dictLookup_cons, h1, dictLookup]
  | cons p t ih =>
      by_cases hp : p.1 = k'
      · simp [List.cons_append, dictLookup_cons, hp]
      · simp [List.cons_append, dictLookup_cons, hp, ih]

theorem dictLookup_insert_self (reg : Registry) (k : Option String) (v : ConversableAgent) :
    dictLookup (dictInsert reg k v) k = some v := by
  unfold dictInsert
  cases h : dictContains reg k with
  | true => simpa [h] using dictLookup_mapReplace_self reg k v h
  | false => simpa [h] using dictLookup_append_self reg k v h

theorem dictLookup_insert_other (reg : Registry) (k k' : Option String)
    (v : ConversableAgent) (h : k' ≠ k) :
    dictLookup (dictInsert reg k v) k' = dictLookup reg k' := by
  unfold dictInsert
  cases hc : dictContains reg k with
  | true => simpa [hc] using dictLookup_mapReplace_other reg k k' v h
  | false => simpa [hc] using dictLookup_append_other reg k k' v h

theorem dictContains_insert (reg : Registry) (k k' : Option String) (v : ConversableAgent) :
    dictContains (dictInsert reg k v) k' = (decide (k' = k) || dictContains reg k') := by
  by_cases h : k' = k
  · subst h
    simp [dictContains, dictLookup_insert_self]
  · simp [dictContains, dictLookup_insert_other reg k k' v h, h]

theorem length_dictInsert (reg : Registry) (k : Option String) (v : ConversableAgent) :
    (dictInsert reg k v).length =
      if dictContains reg k then reg.length else reg.length + 1 := by
  unfold dictInsert
  cases h : dictContains reg k <;> simp [h]

/-! Helper lemmas about the agent-loading fold. -/

/-- The `_load_agents` loop started from an arbitrary registry (used to
reason by induction; the source always starts from the empty dict). -/
def loadAgentsFrom (llm : LLMConfig) (reg : Registry) (defs : List AgentDef) : Registry :=
  defs.foldl
    (fun reg ac =>
      dictInsert reg ac.name (ConversableAgent.create ac.name ac.system_message llm))
    reg

theorem loadAgentRegistry_eq_from (llm : LLMConfig) (defs : List AgentDef) :
    loadAgentRegistry llm defs = loadAgentsFrom llm [] defs := rfl

theorem loadAgentsFrom_cons (llm : LLMConfig) (reg : Registry) (d : AgentDef)
    (defs : List AgentDef) :
    loadAgentsFrom llm reg (d :: defs) =
      loadAgentsFrom llm
        (dictInsert reg d.name (ConversableAgent.create d.name d.system_message llm)) defs := rfl

theorem loadAgentsFrom_append_single (llm : LLMConfig) (reg : Registry)
    (defs : List AgentDef) (d : AgentDef) :
    loadAgentsFrom llm reg (defs ++ [d]) =
      dictInsert (loadAgentsFrom llm reg defs) d.name
        (ConversableAgent.create d.name d.system_message llm) := by
  simp [loadAgentsFrom, List.foldl_append]

theorem loadAgentsFrom_lookup_notMem (llm : LLMConfig) (defs : List AgentDef)
    (reg : Registry) (k : Option String) (h : k ∉ defs.map AgentDef.name) :
    dictLookup (loadAgentsFrom llm reg defs) k = dictLookup reg k := by
  induction defs generalizing reg with
  | nil => rfl
  | cons d t ih =>
      simp only [List.map_cons, List.mem_cons, not_or] at h
      rw [loadAgentsFrom_cons, ih _ h.2,
        dictLookup_insert_other _ _ _ _ h.1]

theorem loadAgentsFrom_contains_mono (llm : LLMConfig) (defs : List AgentDef)
    (reg : Registry) (k : Option String) (h : dictContains reg k = true) :
    dictContains (loadAgentsFrom llm reg defs) k = true := by
  induction defs generalizing reg with
  | nil => exact h
  | cons d t ih =>
      rw [loadAgentsFrom_cons]
      exact ih _ (by rw [dictContains_insert]; simp [h])

theorem loadAgentsFrom_contains_of_mem (llm : LLMConfig) (defs : List AgentDef)
    (reg : Registry) (k : Option String) (h : k ∈ defs.map AgentDef.name) :
    dictContains (loadAgentsFrom llm reg defs) k = true := by
  induction defs generalizing reg with
  | nil => simp at h
  | cons d t ih =>
      rw [loadAgentsFrom_cons]
      have hor : k = d.name ∨ k ∈ t.map AgentDef.name := by simpa using h
      rcases hor with h1 | h2
      · subst h1
        exact loadAgentsFrom_contains_mono llm t _ d.name
          (by rw [dictContains_insert]; simp)
      · exact ih _ h2

theorem loadAgentsFrom_length_nodup (llm : LLMConfig) (defs : List AgentDef)
    (reg : Registry) (hnd : (defs.map AgentDef.name).Nodup)
    (habs : ∀ d ∈ defs, dictContains reg d.name = false) :
    (loadAgentsFrom llm reg defs).length = reg.length + defs.length := by
  induction defs generalizing reg with
  | nil => simp [loadAgentsFrom]
  | cons d t ih =>
      have hnd' : (t.map AgentDef.name).Nodup :=
        (List.nodup_cons.1 (by simpa using hnd)).2
      have hdn : d.name ∉ t.map AgentDef.name :=
        (List.nodup_cons.1 (by simpa using hnd)).1
      have hd : dictContains reg d.name = false := habs d (List.mem_cons_self d t)
      have habs' : ∀ d' ∈ t,
          dictContains
            (dictInsert reg d.name (ConversableAgent.create d.name d.system_message llm))
            d'.name = false := by
        intro d' hd'
        rw [dictContains_insert]
        have h1 : d'.name ≠ d.name :=
          fun hc => hdn (hc ▸ List.mem_map_of_mem AgentDef.name hd')
        simp [h1, habs d' (List.mem_cons_of_mem d hd')]
      rw [loadAgentsFrom_cons, ih _ hnd' habs', length_dictInsert]
      simp [hd]
      omega

theorem loadAgentsFrom_lookup_nodup (llm : LLMConfig) (defs : List AgentDef)
    (reg : Registry) (hnd : (defs.map AgentDef.name).Nodup) :
    ∀ d ∈ defs, dictLookup (loadAgentsFrom llm reg defs) d.name =
      some (ConversableAgent.create d.name d.system_message llm) := by
  induction defs generalizing reg with
  | nil => intro d hd; simp at hd
  | cons d0 t ih =>
      intro d hd
      have hdn : d0.name ∉ t.map AgentDef.name :=
        (List.nodup_cons.1 (by simpa using hnd)).1
      have hnd' : (t.map AgentDef.name).Nodup :=
        (List.nodup_cons.1 (by simpa using hnd)).2
      rcases List.mem_cons.1 hd with h1 | h2
      · subst h1
        rw [loadAgentsFrom_cons, loadAgentsFrom_lookup_notMem llm t _ _ hdn,
          dictLookup_insert_self]
      · rw [loadAgentsFrom_cons]
        exact ih _ hnd' d h2

/-- C7: for a configuration whose agent definitions carry pairwise
distinct names, construction yields a registry of exactly N entries, each
name addressable and bound to the handle built from its own definition;
appending a definition whose name is already taken leaves the registry
size unchanged and rebinds the name to the later handle (silent
overwrite, no error). The last conjunct ties the registry produced by
full construction to `loadAgentRegistry`. -/
theorem load_agents_registry_spec (llm : LLMConfig) (defs : List AgentDef) :
    ((defs.map AgentDef.name).Nodup →
      (loadAgentRegistry llm defs).length = defs.length ∧
      ∀ d ∈ defs, dictLookup (loadAgentRegistry llm defs) d.name =
        some (ConversableAgent.create d.name d.system_message llm)) ∧
    (∀ d : AgentDef, d.name ∈ defs.map AgentDef.name →
      (loadAgentRegistry llm (defs ++ [d])).length = (loadAgentRegistry llm defs).length ∧
      dictLookup (loadAgentRegistry llm (defs ++ [d])) d.name =
        some (ConversableAgent.create d.name d.system_message llm)) ∧
    (∀ (env : Env) (path : String),
      ConversationManager.construct env path (.parsed { agents := some defs }) =
        .ok { agents := loadAgentRegistry (_configure_llm env) defs
            , topic_history := []
            , config_path := path
            , llm_config := _configure_llm env }) := by
  refine ⟨fun hnd => ⟨?_, ?_⟩, fun d hd => ⟨?_, ?_⟩, fun env path => rfl⟩
  · rw [loadAgentRegistry_eq_from,
      loadAgentsFrom_length_nodup llm defs [] hnd (fun d _ => rfl)]
    simp
  · rw [loadAgentRegistry_eq_from]
    exact loadAgentsFrom_lookup_nodup llm defs [] hnd
  · rw [loadAgentRegistry_eq_from, loadAgentRegistry_eq_from,
      loadAgentsFrom_append_single, length_dictInsert]
    simp [loadAgentsFrom_contains_of_mem llm defs [] d.name hd]
  · rw [loadAgentRegistry_eq_from, loadAgentsFrom_append_single, dictLookup_insert_self]

/-- Witness for C7 at a concrete llm configuration: two distinct names
give a registry of size 2, and re-defining name "A" keeps the size at 1
while rebinding "A" to the later handle. -/
theorem load_agents_registry_spec_witness :
    ((loadAgentRegistry (_configure_llm envWithKey)
        [ { name := some "A", system_message := some "sysA" }
        , { name := some "B", system_message := some "sysB" } ]).length = 2) ∧
    ((loadAgentRegistry (_configure_llm envWithKey)
        ([ { name := some "A", system_message := some "sysA" } ] ++
         [ { name := some "A", system_message := some "sysB" } ])).length =
      (loadAgentRegistry (_configure_llm envWithKey)
        [ { name := some "A", system_message := some "sysA" } ]).length) ∧
    dictLookup (loadAgentRegistry (_configure_llm envWithKey)
        ([ { name := some "A", system_message := some "sysA" } ] ++
         [ { name := some "A", system_message := some "sysB" } ])) (some "A") =
      some (ConversableAgent.create (some "A") (some "sysB") (_configure_llm envWithKey)) :=
  ⟨((load_agents_registry_spec (_configure_llm envWithKey)
      [ { name := some "A", system_message := some "sysA" }
      , { name := some "B", system_message := some "sysB" } ]).1 (by decide)).1,
   ((load_agents_registry_spec (_configure_llm envWithKey)
      [ { name := some "A", system_message := some "sysA" } ]).2.1
      { name := some "A", system_message := some "sysB" } (by decide)).1,
   ((load_agents_registry_spec (_configure_llm envWithKey)
      [ { name := some "A", system_message := some "sysA" } ]).2.1
      { name := some "A", system_message := some "sysB" } (by decide)).2⟩

/-- A configuration document whose two agent definitions both lack the
`name` field. -/
def docNameless (sm1 sm2 : Option String) : ConfigDoc :=
  { agents := some
      [ { name := none, system_message := sm1 }
      , { name := none, system_message := sm2 } ] }

/-- C10: agent definitions lacking the `name` (or `system_message`) field
are read as `None`; construction raises no error and the agent is stored
under the absent-value key, a later nameless definition silently
overwriting an earlier one. The second conjunct records that construction
from any parsed document never errors. -/
theorem missing_name_fields_no_error (env : Env) (path : String) (sm1 sm2 : Option String) :
    ConversationManager.construct env path (.parsed (docNameless sm1 sm2)) =
      .ok { agents := [(none, ConversableAgent.create none sm2 (_configure_llm env))]
          , topic_history := []
          , config_path := path
          , llm_config := _configure_llm env } ∧
    ∀ doc : ConfigDoc, ∃ m : ConversationManager,
      ConversationManager.construct env path (.parsed doc) = .ok m :=
  ⟨rfl, fun doc =>
    ⟨{ agents := loadAgentRegistry (_configure_llm env) (doc.agents.getD [])
     , topic_history := []
     , config_path := path
     , llm_config := _configure_llm env }, rfl⟩⟩

/-! Helper lemmas about the retry wrapper and the conversation body. -/

theorem dictContains_false_iff (reg : Registry) (k : Option String) :
    dictContains reg k = false ↔ dictLookup reg k = none := by
  unfold dictContains
  cases dictLookup reg k <;> simp

theorem initiate_once_invalid (m : ConversationManager)
    (c : ConversableAgent → ConversableAgent → String → Nat → Except PyError ChatResult)
    (i r msg : String) (turns now : Nat)
    (h : dictLookup m.agents (some i) = none ∨ dictLookup m.agents (some r) = none) :
    initiate_conversation_once m c i r msg turns now =
      (m, .error (.keyError "Initiator or recipient agent not found")) := by
  cases hi : dictLookup m.agents (some i) with
  | none =>
      cases hr : dictLookup m.agents (some r) with
      | none => simp [initiate_conversation_once, hi, hr]
      | some b => simp [initiate_conversation_once, hi, hr]
  | some a =>
      cases hr : dictLookup m.agents (some r) with
      | none => simp [initiate_conversation_once, hi, hr]
      | some b =>
          rcases h with h | h
          · rw [h] at hi; exact Option.noConfusion hi
          · rw [h] at hr; exact Option.noConfusion hr

theorem initiate_once_valid (m : ConversationManager)
    (c : ConversableAgent → ConversableAgent → String → Nat → Except PyError ChatResult)
    (i r msg : String) (turns now : Nat) (ia ra : ConversableAgent)
    (hi : dictLookup m.agents (some i) = some ia)
    (hr : dictLookup m.agents (some r) = some ra) :
    initiate_conversation_once m c i r msg turns now =
      ({ m with topic_history := m.topic_history ++
          [{ initiator := i, recipient := r, topic := msg, timestamp := now }] },
       c ia ra msg turns) := by
  simp [initiate_conversation_once, hi, hr]

theorem runAttempts_three_ok0 {σ ε α : Type} (f : Nat → σ → σ × Except ε α)
    (s s0 : σ) (a : α) (h0 : f 0 s = (s0, Except.ok a)) :
    runAttempts f 0 2 s = (s0, Except.ok a, 1) := by
  simp [runAttempts, h0]

theorem runAttempts_three_ok1 {σ ε α : Type} (f : Nat → σ → σ × Except ε α)
    (s s0 s1 : σ) (e0 : ε) (a : α)
    (h0 : f 0 s = (s0, Except.error e0)) (h1 : f 1 s0 = (s1, Except.ok a)) :
    runAttempts f 0 2 s = (s1, Except.ok a, 2) := by
  simp [runAttempts, h0, h1]

theorem runAttempts_three_last {σ ε α : Type} (f : Nat → σ → σ × Except ε α)
    (s s0 s1 s2 : σ) (e0 e1 : ε) (r2 : Except ε α)
    (h0 : f 0 s = (s0, Except.error e0)) (h1 : f 1 s0 = (s1, Except.error e1))
    (h2 : f 2 s1 = (s2, r2)) :
    runAttempts f 0 2 s = (s2, r2, 3) := by
  simp [runAttempts, h0, h1, h2]

/-- A failed call with unregistered names: every one of the 3 attempts
raises the same `KeyError` before reaching any side effect, so the state
is unchanged and the error propagates after attempt 3. -/
theorem run_invalid (m : ConversationManager) (chat : ChatOracle)
    (i r msg : String) (turns : Nat) (clock : Nat → Nat)
    (h : dictLookup m.agents (some i) = none ∨ dictLookup m.agents (some r) = none) :
    initiate_conversation m chat i r msg turns clock =
      (m, .error (.keyError "Initiator or recipient agent not found"), 3) := by
  unfold initiate_conversation
  exact runAttempts_three_last _ m m m m _ _ _
    (initiate_once_invalid m (chat 0) i r msg turns (clock 0) h)
    (initiate_once_invalid m (chat 1) i r msg turns (clock 1) h)
    (initiate_once_invalid m (chat 2) i r msg turns (clock 2) h)

/-- C9: because the backoff wrapper encloses the whole body, a call with
an unregistered initiator or recipient is itself retried: the
unknown-agent `KeyError` is raised and caught on the first two of the 3
total attempts and only then propagates to the caller, the manager state
unchanged. -/
theorem unknown_agent_retried (m : ConversationManager) (chat : ChatOracle)
    (i r msg : String) (turns : Nat) (clock : Nat → Nat)
    (h : dictContains m.agents (some i) = false ∨ dictContains m.agents (some r) = false) :
    initiate_conversation m chat i r msg turns clock =
      (m, .error (.keyError "Initiator or recipient agent not found"), 3) := by
  apply run_invalid
  rcases h with h | h
  · exact Or.inl ((dictContains_false_iff _ _).1 h)
  · exact Or.inr ((dictContains_false_iff _ _).1 h)

/-- Witness for C9: a concrete call with unregistered initiator "X" on
the two-agent manager returns the unknown-agent error after 3 attempts
with the state unchanged. -/
theorem unknown_agent_retried_witness :
    initiate_conversation mgrAB chatAlwaysFails "X" "B" "hello" 2 (fun j => j) =
      (mgrAB, .error (.keyError "Initiator or recipient agent not found"), 3) :=
  unknown_agent_retried mgrAB chatAlwaysFails "X" "B" "hello" 2 (fun j => j)
    (Or.inl rfl)

/-- C4: a call with an unregistered initiator or recipient fails with the
unknown-agent `KeyError`; the check precedes any side effect, so no
`TopicRecord` is appended and the topic log (indeed the whole manager
state) is unchanged by the failed call. -/
theorem unknown_agent_no_topic_record (m : ConversationManager) (chat : ChatOracle)
    (i r msg : String) (turns : Nat) (clock : Nat → Nat)
    (h : dictContains m.agents (some i) = false ∨ dictContains m.agents (some r) = false) :
    (initiate_conversation m chat i r msg turns clock).2.1 =
      .error (.keyError "Initiator or recipient agent not found") ∧
    (initiate_conversation m chat i r msg turns clock).1.topic_history = m.topic_history ∧
    (initiate_conversation m chat i r msg turns clock).1 = m := by
  have hrun : initiate_conversation m chat i r msg turns clock =
      (m, .error (.keyError "Initiator or recipient agent not found"), 3) := by
    apply run_invalid
    rcases h with h | h
    · exact Or.inl ((dictContains_false_iff _ _).1 h)
    · exact Or.inr ((dictContains_false_iff _ _).1 h)
  rw [hrun]
  exact ⟨rfl, rfl, rfl⟩

/-- Witness for C4: a concrete call with unregistered recipient "Y"
raises the unknown-agent error and leaves the (empty) topic log empty. -/
theorem unknown_agent_no_topic_record_witness :
    (initiate_conversation mgrAB chatAlwaysFails "A" "Y" "hi" 2 (fun j => j)).2.1 =
      .error (.keyError "Initiator or recipient agent not found") ∧
    (initiate_conversation mgrAB chatAlwaysFails "A" "Y" "hi" 2 (fun j => j)).1.topic_history =
      mgrAB.topic_history ∧
    (initiate_conversation mgrAB chatAlwaysFails "A" "Y" "hi" 2 (fun j => j)).1 = mgrAB :=
  unknown_agent_no_topic_record mgrAB chatAlwaysFails "A" "Y" "hi" 2 (fun j => j)
    (Or.inr rfl)

/-- C1 counterexample: on the two-agent manager with both names valid and
a remote collaborator that always fails, a single call to
`initiate_conversation` appends 3 topic records (one per attempt), not
exactly one. -/
theorem topic_append_exactly_once_counterexample :
    (initiate_conversation mgrAB chatAlwaysFails "A" "B" "hello" 2
        (fun j => j)).1.topic_history.length = 3 ∧
    ¬ (initiate_conversation mgrAB chatAlwaysFails "A" "B" "hello" 2
        (fun j => j)).1.topic_history.length = 1 := by
  constructor
  · rfl
  · intro hc
    exact absurd ((rfl :
      (initiate_conversation mgrAB chatAlwaysFails "A" "B" "hello" 2
        (fun j => j)).1.topic_history.length = 3) ▸ hc) (by decide)

/-- C1 (amended): with both names registered, each attempt appends
exactly one TopicRecord: the final topic log is the initial log extended
by exactly one record per attempt made (1 attempt when the first
delegation succeeds, up to 3 when it fails), the appended records
differing only in their per-attempt timestamps. -/
theorem topic_append_per_attempt (m : ConversationManager) (chat : ChatOracle)
    (i r msg : String) (turns : Nat) (clock : Nat → Nat) (ia ra : ConversableAgent)
    (hi : dictLookup m.agents (some i) = some ia)
    (hr : dictLookup m.agents (some r) = some ra) :
    (initiate_conversation m chat i r msg turns clock).1.topic_history =
      m.topic_history ++
        (List.range (initiate_conversation m chat i r msg turns clock).2.2).map
          (fun j => { initiator := i, recipient := r, topic := msg, timestamp := clock j }) ∧
    1 ≤ (initiate_conversation m chat i r msg turns clock).2.2 ∧
    (initiate_conversation m chat i r msg turns clock).2.2 ≤ 3 := by
  have h0 := initiate_once_valid m (chat 0) i r msg turns (clock 0) ia ra hi hr
  cases hc0 : chat 0 ia ra msg turns with
  | ok a0 =>
      rw [hc0] at h0
      have hrun : initiate_conversation m chat i r msg turns clock = _ :=
        runAttempts_three_ok0 _ _ _ _ h0
      rw [hrun]
      exact ⟨by simp [List.range_succ], by simp, by simp⟩
  | error e0 =>
      rw [hc0] at h0
      have h1 := initiate_once_valid
        { m with topic_history := m.topic_history ++
            [{ initiator := i, recipient := r, topic := msg, timestamp := clock 0 }] }
        (chat 1) i r msg turns (clock 1) ia ra hi hr
      cases hc1 : chat 1 ia ra msg turns with
      | ok a1 =>
          rw [hc1] at h1
          have hrun : initiate_conversation m chat i r msg turns clock = _ :=
            runAttempts_three_ok1 _ _ _ _ _ _ h0 h1
          rw [hrun]
          exact ⟨by simp [List.range_succ], by simp, by simp⟩
      | error e1 =>
          rw [hc1] at h1
          have h2 := initiate_once_valid
            { m with topic_history := (m.topic_history ++
                [{ initiator := i, recipient := r, topic := msg, timestamp := clock 0 }]) ++
                [{ initiator := i, recipient := r, topic := msg, timestamp := clock 1 }] }
            (chat 2) i r msg turns (clock 2) ia ra hi hr
          have hrun : initiate_conversation m chat i r msg turns clock = _ :=
            runAttempts_three_last _ _ _ _ _ _ _ _ h0 h1 h2
          rw [hrun]
          exact ⟨by simp [List.range_succ], by simp, by simp⟩

/-- Witness for C1 (amended): on the two-agent manager with a
first-attempt success, exactly one record is appended. -/
theorem topic_append_per_attempt_witness :
    (initiate_conversation mgrAB (fun _ _ _ _ _ => Except.ok okResult) "A" "B" "hello" 2
        (fun j => j)).1.topic_history =
      mgrAB.topic_history ++
        (List.range (initiate_conversation mgrAB (fun _ _ _ _ _ => Except.ok okResult)
            "A" "B" "hello" 2 (fun j => j)).2.2).map
          (fun j => { initiator := "A", recipient := "B", topic := "hello", timestamp := j }) ∧
    1 ≤ (initiate_conversation mgrAB (fun _ _ _ _ _ => Except.ok okResult) "A" "B" "hello" 2
        (fun j => j)).2.2 ∧
    (initiate_conversation mgrAB (fun _ _ _ _ _ => Except.ok okResult) "A" "B" "hello" 2
        (fun j => j)).2.2 ≤ 3 :=
  topic_append_per_attempt mgrAB (fun _ _ _ _ _ => Except.ok okResult) "A" "B" "hello" 2
    (fun j => j)
    (ConversableAgent.create (some "A") (some "sysA") (_configure_llm envWithKey))
    (ConversableAgent.create (some "B") (some "sysB") (_configure_llm envWithKey))
    rfl rfl

/-- C2 counterexample: with valid names and a collaborator failing twice
then succeeding, the call does return the successful result after 3
attempts — but 3 topic records have been appended, showing that the
append step (not only the delegation) re-ran on every retry. -/
theorem retry_only_delegation_counterexample :
    (initiate_conversation mgrAB chatFailsTwice "A" "B" "hello" 2 (fun j => j)).2.1 =
      Except.ok okResult ∧
    (initiate_conversation mgrAB chatFailsTwice "A" "B" "hello" 2 (fun j => j)).2.2 = 3 ∧
    (initiate_conversation mgrAB chatFailsTwice "A" "B" "hello" 2
        (fun j => j)).1.topic_history.length = 3 ∧
    ¬ (initiate_conversation mgrAB chatFailsTwice "A" "B" "hello" 2
        (fun j => j)).1.topic_history.length = 1 := by
  refine ⟨rfl, rfl, rfl, ?_⟩
  intro hc
  exact absurd ((rfl :
    (initiate_conversation mgrAB chatFailsTwice "A" "B" "hello" 2
      (fun j => j)).1.topic_history.length = 3) ▸ hc) (by decide)

/-- C2 (amended): the exponential-backoff retry wraps the whole
`initiate_conversation` body (precondition check, topic append and
delegation alike), for at most 3 total attempts. With valid names: if the
collaborator fails on the first two attempts and succeeds on the third,
the call returns the successful result after exactly 3 attempts (having
appended 3 records along the way); if all 3 attempts fail, the final
exception from the collaborator propagates to the caller. -/
theorem retry_wraps_whole_body (m : ConversationManager) (chat : ChatOracle)
    (i r msg : String) (turns : Nat) (clock : Nat → Nat) (ia ra : ConversableAgent)
    (hi : dictLookup m.agents (some i) = some ia)
    (hr : dictLookup m.agents (some r) = some ra) :
    (∀ (e0 e1 : PyError) (a : ChatResult),
      chat 0 ia ra msg turns = .error e0 →
      chat 1 ia ra msg turns = .error e1 →
      chat 2 ia ra msg turns = .ok a →
      (initiate_conversation m chat i r msg turns clock).2.1 = .ok a ∧
      (initiate_conversation m chat i r msg turns clock).2.2 = 3 ∧
      (initiate_conversation m chat i r msg turns clock).1.topic_history.length =
        m.topic_history.length + 3) ∧
    (∀ (e0 e1 e2 : PyError),
      chat 0 ia ra msg turns = .error e0 →
      chat 1 ia ra msg turns = .error e1 →
      chat 2 ia ra msg turns = .error e2 →
      (initiate_conversation m chat i r msg turns clock).2.1 = .error e2 ∧
      (initiate_conversation m chat i r msg turns clock).2.2 = 3) ∧
    (initiate_conversation m chat i r msg turns clock).2.2 ≤ 3 := by
  refine ⟨?_, ?_, ?_⟩
  · intro e0 e1 a hc0 hc1 hc2
    have h0 := initiate_once_valid m (chat 0) i r msg turns (clock 0) ia ra hi hr
    rw [hc0] at h0
    have h1 := initiate_once_valid
      { m with topic_history := m.topic_history ++
          [{ initiator := i, recipient := r, topic := msg, timestamp := clock 0 }] }
      (chat 1) i r msg turns (clock 1) ia ra hi hr
    rw [hc1] at h1
    have h2 := initiate_once_valid
      { m with topic_history := (m.topic_history ++
          [{ initiator := i, recipient := r, topic := msg, timestamp := clock 0 }]) ++
          [{ initiator := i, recipient := r, topic := msg, timestamp := clock 1 }] }
      (chat 2) i r msg turns (clock 2) ia ra hi hr
    rw [hc2] at h2
    have hrun : initiate_conversation m chat i r msg turns clock = _ :=
      runAttempts_three_last _ _ _ _ _ _ _ _ h0 h1 h2
    rw [hrun]
    refine ⟨rfl, rfl, ?_⟩
    simp only [List.length_append, List.length_cons, List.length_nil]
  · intro e0 e1 e2 hc0 hc1 hc2
    have h0 := initiate_once_valid m (chat 0) i r msg turns (clock 0) ia ra hi hr
    rw [hc0] at h0
    have h1 := initiate_once_valid
      { m with topic_history := m.topic_history ++
          [{ initiator := i, recipient := r, topic := msg, timestamp := clock 0 }] }
      (chat 1) i r msg turns (clock 1) ia ra hi hr
    rw [hc1] at h1
    have h2 := initiate_once_valid
      { m with topic_history := (m.topic_history ++
          [{ initiator := i, recipient := r, topic := msg, timestamp := clock 0 }]) ++
          [{ initiator := i, recipient := r, topic := msg, timestamp := clock 1 }] }
      (chat 2) i r msg turns (clock 2) ia ra hi hr
    rw [hc2] at h2
    have hrun : initiate_conversation m chat i r msg turns clock = _ :=
      runAttempts_three_last _ _ _ _ _ _ _ _ h0 h1 h2
    rw [hrun]
    exact ⟨rfl, rfl⟩
  · have h0 := initiate_once_valid m (chat 0) i r msg turns (clock 0) ia ra hi hr
    cases hc0 : chat 0 ia ra msg turns with
    | ok a0 =>
        rw [hc0] at h0
        have hrun : initiate_conversation m chat i r msg turns clock = _ :=
          runAttempts_three_ok0 _ _ _ _ h0
        rw [hrun]
        simp
    | error e0 =>
        rw [hc0] at h0
        have h1 := initiate_once_valid
          { m with topic_history := m.topic_history ++
              [{ initiator := i, recipient := r, topic := msg, timestamp := clock 0 }] }
          (chat 1) i r msg turns (clock 1) ia ra hi hr
        cases hc1 : chat 1 ia ra msg turns with
        | ok a1 =>
            rw [hc1] at h1
            have hrun : initiate_conversation m chat i r msg turns clock = _ :=
              runAttempts_three_ok1 _ _ _ _ _ _ h0 h1
            rw [hrun]
            simp
        | error e1 =>
            rw [hc1] at h1
            have h2 := initiate_once_valid
              { m with topic_history := (m.topic_history ++
                  [{ initiator := i, recipient := r, topic := msg, timestamp := clock 0 }]) ++
                  [{ initiator := i, recipient := r, topic := msg, timestamp := clock 1 }] }
              (chat 2) i r msg turns (clock 2) ia ra hi hr
            have hrun : initiate_conversation m chat i r msg turns clock = _ :=
              runAttempts_three_last _ _ _ _ _ _ _ _ h0 h1 h2
            rw [hrun]

/-- Witness for C2 (amended) on the fails-twice-then-succeeds mock: the
call returns the successful result after exactly 3 attempts with 3
records appended. -/
theorem retry_wraps_whole_body_witness :
    (initiate_conversation mgrAB chatFailsTwice "A" "B" "hello" 2 (fun j => j)).2.1 =
      Except.ok okResult ∧
    (initiate_conversation mgrAB chatFailsTwice "A" "B" "hello" 2 (fun j => j)).2.2 = 3 ∧
    (initiate_conversation mgrAB chatFailsTwice "A" "B" "hello" 2
        (fun j => j)).1.topic_history.length = mgrAB.topic_history.length + 3 :=
  (retry_wraps_whole_body mgrAB chatFailsTwice "A" "B" "hello" 2 (fun j => j)
      (ConversableAgent.create (some "A") (some "sysA") (_configure_llm envWithKey))
      (ConversableAgent.create (some "B") (some "sysB") (_configure_llm envWithKey))
      rfl rfl).1
    (.chatError "transient failure") (.chatError "transient failure") okResult rfl rfl rfl
